import Mathlib

/-!
Verification development for the conversational financial-assistant repository.

The repository's core (quality-evaluation decision procedure, retry/termination
state machine, financial-analysis error handling, report-plan validation) is
shallowly embedded below.  Pure functions from the Python sources become Lean
functions; every external collaborator call (LLM completion, market-data tool,
chart/save tool, document retriever) is passed in as an explicit outcome value
("oracle"), with `Except` modelling a call that may raise.  Dictionaries with a
fixed key set become structures; `dict.get(k, d)` becomes an `Option` field read
with `getD` where the key can be absent.
-/

namespace Spec2Proof

/-- Substring containment, modelling Python's `needle in hay`.
True iff `needle` occurs contiguously in `hay` (the empty needle always occurs). -/
def charsHold (needle : List Char) : List Char → Bool
  | [] => needle.isEmpty
  | c :: rest => needle.isPrefixOf (c :: rest) || charsHold needle rest

/-- Python membership test: `strContains hay needle` models `needle in hay`. -/
def strContains (hay needle : String) : Bool :=
  charsHold needle.data hay.data

/-- Python's `str.strip()`: drop leading and trailing whitespace. -/
def pyStrip (s : String) : String :=
  String.mk (((s.data.dropWhile Char.isWhitespace).reverse.dropWhile Char.isWhitespace).reverse)

/-- Python's `str.lower()` (ASCII letters; the keyword sets compared in lower
case are ASCII or Korean, and Korean has no case). -/
def pyLower (s : String) : String :=
  String.mk (s.data.map Char.toLower)

namespace QE

/-!
Embedding of `src/agents/quality_evaluator.py` (`QualityEvaluator`).

The constructor stores `threshold = 2.0` when none is passed (line 46); the
threshold is the `thr` parameter below.  The LLM scoring call
(`self.evaluation_chain.invoke(...)`, line 193) is an oracle of type
`Except Unit String`: `.ok content` is the reply text, `.error ()` a raised
exception.
-/

/-- The fixed success-marker set of `_is_critical_error` (lines 72-75),
checked against the raw (not lowercased) answer. -/
def successIndicators : List String :=
  ["✓", "✔", "성공", "완료", "저장되었습니다", "저장됨",
   "생성되었습니다", "생성 완료", "saved", "completed", "successfully"]

/-- The fixed critical-failure phrases of `_is_critical_error` (lines 83-92),
checked against the raw answer. -/
def criticalPatterns : List String :=
  ["분석 데이터를 찾을 수 없습니다", "질문이 비어 있어", "적합한 에이전트를 찾을 수 없습니다",
   "보고서를 생성하지 못했습니다", "답변을 드릴 수 없습니다", "처리할 수 없습니다",
   "오류가 발생했습니다", "analysis_data를 찾을 수 없습니다"]

/-- The generic error vocabulary of `_is_critical_error` (line 100),
checked against the lowercased answer. -/
def errorKeywords : List String :=
  ["error", "failed", "could not", "unable to", "오류", "실패"]

/-- Does the answer contain at least one success marker (lines 76)? -/
def hasSuccessIndicator (answer : String) : Bool :=
  successIndicators.any (fun m => strContains answer m)

/-- Embedding of `QualityEvaluator._is_critical_error` (lines 54-105): success markers
short-circuit to not-critical; then critical phrases; then generic error
vocabulary on the lowercased answer. -/
def isCriticalError (answer : String) : Bool :=
  if hasSuccessIndicator answer then false
  else if criticalPatterns.any (fun p => strContains answer p) then true
  else if errorKeywords.any (fun k => strContains (pyLower answer) k) then true
  else false

/-- The four rubric criteria of `_parse_scores` (line 126). -/
def criteria : List String := ["정확성", "완전성", "관련성", "명확성"]

/-- Drop leading regex-`\s*` whitespace. -/
def skipWs : List Char → List Char
  | [] => []
  | c :: rest => if c.isWhitespace then skipWs rest else c :: rest

/-- Try to match the regex `crit \s* [:：] \s ([1-5])` at the head of `cs`
(the pattern of `_parse_scores`, line 130: criterion label, optional
whitespace, an ASCII or fullwidth colon, exactly one whitespace, one digit
1-5).  Returns the captured digit's value. -/
def matchScoreHere (crit : List Char) (cs : List Char) : Option Nat :=
  if crit.isPrefixOf cs then
    match skipWs (cs.drop crit.length) with
    | c :: rest =>
      if c = ':' ∨ c = '：' then
        match rest with
        | w :: rest2 =>
          if w.isWhitespace then
            match rest2 with
            | d :: _ => if '1' ≤ d ∧ d ≤ '5' then some (d.toNat - '0'.toNat) else none
            | [] => none
          else none
        | [] => none
      else none
    | [] => none
  else none

/-- Leftmost match of the criterion pattern, modelling `re.search` in
`_parse_scores` (line 131). -/
def searchScore (crit : List Char) : List Char → Option Nat
  | [] => matchScoreHere crit []
  | c :: rest =>
    match matchScoreHere crit (c :: rest) with
    | some n => some n
    | none => searchScore crit rest

/-- Embedding of `QualityEvaluator._parse_scores` (lines 107-141): each of the four
criteria is looked up in the reply; an unparseable criterion defaults to 0.
The source ends with `retrun scores` (line 141), a syntax slip for
`return scores`; the evidently intended return is embedded. -/
def parseScores (llmResponse : String) : List (String × Nat) :=
  criteria.map (fun c => (c, (searchScore c.data llmResponse.data).getD 0))

/-- Result dictionary of `evaluate_answer`.  `scores = none` models the
branch whose dictionary carries no `"scores"` key (the empty-answer branch
writes the misspelled key `"socres"`, line 177).  `score` keeps the exact
mean where the source stores `round(avg, 2)` (line 236); no claim reads the
rounded value, and the pass/fail comparison (line 225) uses the unrounded
mean in the source as well. -/
structure EvalResult where
  status : String
  score : ℚ
  scores : Option (List (String × Nat))
  failureReason : Option String
deriving Repr, DecidableEq

/-- The positive (parseable) criterion values kept for the average
(line 204: `valid_scores = [s for s in scores.values() if s > 0]`). -/
def validScores (llmResponse : String) : List Nat :=
  ((parseScores llmResponse).map Prod.snd).filter (fun n => 0 < n)

/-- The mean of the parseable criterion values (line 214). -/
def meanScore (llmResponse : String) : ℚ :=
  ((validScores llmResponse).map (fun n => (n : ℚ))).sum / (validScores llmResponse).length

/-- Rubric-scoring step of `evaluate_answer` (lines 198-239): all four
unparseable ⇒ fail/error; otherwise mean-vs-threshold decides pass or
fail/low_quality. -/
def rubricStage (thr : ℚ) (llmResponse : String) : EvalResult :=
  let scores := parseScores llmResponse
  if validScores llmResponse = [] then
    { status := "fail", score := 0, scores := some scores, failureReason := some "error" }
  else if thr ≤ meanScore llmResponse then
    { status := "pass", score := meanScore llmResponse, scores := some scores, failureReason := none }
  else
    { status := "fail", score := meanScore llmResponse, scores := some scores, failureReason := some "low_quality" }

/-- Step 3 of `evaluate_answer` with its exception handler (lines 191-249):
a raised LLM call is converted to fail/error/score 0.  The handler's
dictionary literal in the source is missing a comma between its `"scores"`
and `"failure_reason"` items (lines 247-248), a syntax slip; the evidently
intended dictionary is embedded. -/
def llmStage (thr : ℚ) (llm : Except Unit String) : EvalResult :=
  match llm with
  | .error _ => { status := "fail", score := 0, scores := some [], failureReason := some "error" }
  | .ok content => rubricStage thr content

/-- The empty-answer gate of `evaluate_answer` (line 172):
`not answer or len(answer.strip()) < 10`. -/
def isEmptyAnswer (answer : String) : Bool :=
  answer = "" || (pyStrip answer).length < 10

/-- Stage 2 onwards of `evaluate_answer` (lines 181-249): critical-error
check, then LLM rubric scoring. -/
def afterEmptyGate (thr : ℚ) (answer : String) (llm : Except Unit String) : EvalResult :=
  if isCriticalError answer then
    { status := "fail", score := 0, scores := some [], failureReason := some "error" }
  else llmStage thr llm

/-- Embedding of `QualityEvaluator.evaluate_answer` (lines 143-249).  The `question`
argument only feeds the LLM prompt and does not influence the decision
procedure. -/
def evaluateAnswer (thr : ℚ) (_question answer : String) (llm : Except Unit String) : EvalResult :=
  if isEmptyAnswer answer then
    { status := "fail", score := 0, scores := none, failureReason := some "empty" }
  else afterEmptyGate thr answer llm

/-- C4: an answer that is missing/empty or whose trimmed length is below 10
characters makes `evaluate_answer` return fail/empty/score 0, independently of
the LLM oracle (so before the critical-error check and before any LLM call);
an answer of 10 or more trimmed characters proceeds past this gate into
`afterEmptyGate` (critical-error check, then rubric scoring). -/
theorem claim_C4_empty_gate (thr : ℚ) (q a : String) (llm : Except Unit String) :
    ((a = "" ∨ (pyStrip a).length < 10) →
      evaluateAnswer thr q a llm =
        { status := "fail", score := 0, scores := none, failureReason := some "empty" }) ∧
    (10 ≤ (pyStrip a).length →
      evaluateAnswer thr q a llm = afterEmptyGate thr a llm) := by
  constructor
  · intro h
    have hb : isEmptyAnswer a = true := by
      simp only [isEmptyAnswer, Bool.or_eq_true, decide_eq_true_eq]
      rcases h with h | h
      · exact Or.inl h
      · exact Or.inr h
    simp [evaluateAnswer, hb]
  · intro h
    have hb : isEmptyAnswer a = false := by
      simp only [isEmptyAnswer, Bool.or_eq_false_iff, decide_eq_false_iff_not]
      refine ⟨?_, by omega⟩
      intro hrfl
      subst hrfl
      exact absurd h (by decide)
    simp [evaluateAnswer, hb]

/-- Witness for C4 at concrete inputs: the 2-character answer `"ok"` hits the
gate; a long Korean answer passes it. -/
theorem claim_C4_empty_gate_witness :
    evaluateAnswer 2 "질문" "ok" (.ok "resp") =
      { status := "fail", score := 0, scores := none, failureReason := some "empty" } ∧
    evaluateAnswer 2 "질문" "이 답변은 충분히 길게 작성된 정상적인 답변입니다" (.ok "resp") =
      afterEmptyGate 2 "이 답변은 충분히 길게 작성된 정상적인 답변입니다" (.ok "resp") :=
  ⟨(claim_C4_empty_gate 2 "질문" "ok" (.ok "resp")).1 (Or.inr (by decide)),
   (claim_C4_empty_gate 2 "질문" "이 답변은 충분히 길게 작성된 정상적인 답변입니다" (.ok "resp")).2
     (by decide)⟩

/-- C5: an answer containing at least one success marker of the fixed set is
classified not critical by `_is_critical_error`, regardless of any critical
failure phrases or generic error vocabulary also present; consequently, once
past the empty gate, `evaluate_answer` goes straight to the LLM rubric stage
and never returns failure_reason "error" from the critical-error step. -/
theorem claim_C5_success_marker (thr : ℚ) (q a : String) (llm : Except Unit String)
    (h : hasSuccessIndicator a = true) :
    isCriticalError a = false ∧
    (isEmptyAnswer a = false → evaluateAnswer thr q a llm = llmStage thr llm) := by
  have hc : isCriticalError a = false := by
    simp [isCriticalError, h]
  refine ⟨hc, fun hg => ?_⟩
  simp [evaluateAnswer, afterEmptyGate, hg, hc]

/-- Witness for C5 at the spec's own example answer, which contains the
critical vocabulary 실패 and 오류 발생 but also the marker ✓ and the marker
저장되었습니다. -/
theorem claim_C5_success_marker_witness :
    isCriticalError "분석 실패 오류 발생했지만 ✓ 저장되었습니다" = false ∧
    evaluateAnswer 2 "q" "분석 실패 오류 발생했지만 ✓ 저장되었습니다" (.ok "판정") =
      llmStage 2 (.ok "판정") :=
  ⟨(claim_C5_success_marker 2 "q" "분석 실패 오류 발생했지만 ✓ 저장되었습니다" (.ok "판정")
      (by decide)).1,
   (claim_C5_success_marker 2 "q" "분석 실패 오류 발생했지만 ✓ 저장되었습니다" (.ok "판정")
      (by decide)).2 (by decide)⟩

/-- C6 (behaviour the source evidently intends at `_parse_scores` /
`evaluate_answer` lines 191-239; the source's line 141 `retrun scores` is a
syntax slip, see `parseScores`): a criterion that cannot be parsed defaults
to 0 and is excluded from the average; all four unparseable gives
fail/error; otherwise the mean of the parseable scores against the threshold
decides pass (no failure reason) versus fail/low_quality. -/
theorem claim_C6_rubric_scoring (thr : ℚ) (resp : String) :
    (∀ c ∈ criteria, searchScore c.data resp.data = none →
      (parseScores resp).lookup c = some 0) ∧
    (validScores resp = [] →
      rubricStage thr resp =
        { status := "fail", score := 0, scores := some (parseScores resp),
          failureReason := some "error" }) ∧
    (validScores resp ≠ [] → thr ≤ meanScore resp →
      rubricStage thr resp =
        { status := "pass", score := meanScore resp, scores := some (parseScores resp),
          failureReason := none }) ∧
    (validScores resp ≠ [] → meanScore resp < thr →
      rubricStage thr resp =
        { status := "fail", score := meanScore resp, scores := some (parseScores resp),
          failureReason := some "low_quality" }) := by
  refine ⟨?_, fun h => ?_, fun h1 h2 => ?_, fun h1 h2 => ?_⟩
  · intro c hc hs
    fin_cases hc <;> simp [parseScores, criteria, List.lookup, hs]
  · simp [rubricStage, h]
  · simp [rubricStage, h1, h2]
  · simp [rubricStage, h1, not_le.mpr h2]

/-- Witness for C6: a reply parsing to scores 4, 3, 5, 4 (mean 4 ≥ 2) passes;
a reply with no parseable line is fail/error; a reply parsing only 정확성: 1
(mean 1 < 2) is fail/low_quality; 완전성 is unparseable there and defaults
to 0. -/
theorem claim_C6_rubric_scoring_witness :
    (parseScores "정확성: 1").lookup "완전성" = some 0 ∧
    rubricStage 2 "점수를 매길 수 없습니다" =
      { status := "fail", score := 0, scores := some (parseScores "점수를 매길 수 없습니다"),
        failureReason := some "error" } ∧
    rubricStage 2 "정확성: 4\n완전성: 3\n관련성: 5\n명확성: 4" =
      { status := "pass", score := meanScore "정확성: 4\n완전성: 3\n관련성: 5\n명확성: 4",
        scores := some (parseScores "정확성: 4\n완전성: 3\n관련성: 5\n명확성: 4"),
        failureReason := none } ∧
    rubricStage 2 "정확성: 1" =
      { status := "fail", score := meanScore "정확성: 1",
        scores := some (parseScores "정확성: 1"), failureReason := some "low_quality" } := by
  refine ⟨?_, ?_, ?_, ?_⟩
  · exact (claim_C6_rubric_scoring 2 "정확성: 1").1 "완전성" (by decide) (by decide)
  · exact (claim_C6_rubric_scoring 2 "점수를 매길 수 없습니다").2.1 (by decide)
  · refine (claim_C6_rubric_scoring 2 "정확성: 4\n완전성: 3\n관련성: 5\n명확성: 4").2.2.1
      (by decide) ?_
    have hv : validScores "정확성: 4\n완전성: 3\n관련성: 5\n명확성: 4" = [4, 3, 5, 4] := by
      decide
    simp only [meanScore, hv]
    norm_num
  · refine (claim_C6_rubric_scoring 2 "정확성: 1").2.2.2 (by decide) ?_
    have hv : validScores "정확성: 1" = [1] := by decide
    simp only [meanScore, hv]
    norm_num

/-- C7 (behaviour the source evidently intends at lines 241-249; the
handler's dictionary literal is missing a comma, see `llmStage`): an
exception raised during the LLM scoring step is caught and converted into
the structured fail/error/score-0 result, so `evaluate_answer` returns a
plain result to its caller instead of raising. -/
theorem claim_C7_exception_converted (thr : ℚ) (q a : String)
    (hg : isEmptyAnswer a = false) (hc : isCriticalError a = false) :
    evaluateAnswer thr q a (.error ()) =
      { status := "fail", score := 0, scores := some [], failureReason := some "error" } := by
  simp [evaluateAnswer, afterEmptyGate, llmStage, hg, hc]

/-- Witness for C7 at a concrete long, marker-free answer. -/
theorem claim_C7_exception_converted_witness :
    evaluateAnswer 2 "질문" "여기에 주식 분석 결과가 충분히 길게 들어 있습니다" (.error ()) =
      { status := "fail", score := 0, scores := some [], failureReason := some "error" } :=
  claim_C7_exception_converted 2 "질문" "여기에 주식 분석 결과가 충분히 길게 들어 있습니다"
    (by decide) (by decide)

end QE

namespace FA

/-!
Embedding of `src/agents/financial_analyst.py` (`FinancialAnalyst`).

Every external call is an oracle: `Except String α` models a call that may
raise (carrying `str(e)`).  The `stock_info` dictionary returned by the
market-data tool is modelled as `StockInfo`: the two 52-week fields the code
inspects are explicit (a missing key reads as the code's `.get(_, 0)`
default 0), the remaining keys are an opaque association list.  The
`metrics`/`period`/`stocks` keys of the result dictionaries are glue copied
verbatim from `stock_info` (lines 498-510) and are not read by any claim;
they are omitted from the result model.
-/

/-- The `stock_info` dictionary (`get_stock_info` result).  The fields the
code reads are explicit; `week52High`/`week52Low` model
`stock_info.get("52week_high", 0)` / `.get("52week_low", 0)` (a missing key
and a stored 0 behave identically in the source); the remaining keys are the
opaque `payload`. -/
structure StockInfo where
  name : Option String
  companyName : Option String
  currentPrice : Option ℚ
  week52High : ℚ
  week52Low : ℚ
  payload : List (String × String)
deriving Repr, DecidableEq

/-- The `{}` fallback written when the stock-info fetch fails (line 255). -/
def emptyStockInfo : StockInfo :=
  { name := none, companyName := none, currentPrice := none,
    week52High := 0, week52Low := 0, payload := [] }

/-- The `collected_data` dictionary built by `_collect_stock_data`
(lines 244-324). -/
structure CollectedData where
  ticker : String
  stockInfo : StockInfo
  historical : String
  webSearch : String
  analystRec : String
deriving Repr, DecidableEq

/-- Outcomes of the external calls made by one `_collect_stock_data` run.
`week52FromHist` is the outcome of the pandas block (lines 267-299) that
parses the historical CSV: `some (hi, lo)` when a non-empty frame with
High/Low columns is obtained, `none` when the frame is empty, the columns
are missing, or the inner computation raises (its own `except`, line 298).
`glueError` models an exception escaping the four inner handlers and hitting
the outer handler (line 326), which returns `None`. -/
structure FetchOracles where
  glueError : Option String
  stockInfo : Except String StockInfo
  historical : Except String String
  week52FromHist : Option (ℚ × ℚ)
  webSearch : Except String String
  analystRec : Except String String

/-- Embedding of `FinancialAnalyst._collect_stock_data` (lines 233-328): the four
sub-fetches are independently caught, each failure degrading to `{}` or `""`
for its own field; after a successful historical fetch, zero 52-week fields
are backfilled from the parsed series (lines 264-297). -/
def collectStockData (ticker : String) (o : FetchOracles) : Option CollectedData :=
  match o.glueError with
  | some _ => none
  | none =>
    let info := match o.stockInfo with
      | .ok i => i
      | .error _ => emptyStockInfo
    let histInfo : String × StockInfo := match o.historical with
      | .error _ => ("", info)
      | .ok h =>
        if (info.week52High = 0 ∨ info.week52Low = 0) ∧ h ≠ "" then
          match o.week52FromHist with
          | some hl =>
            let info1 := if info.week52High = 0 then { info with week52High := hl.1 } else info
            let info2 := if info1.week52Low = 0 then { info1 with week52Low := hl.2 } else info1
            (h, info2)
          | none => (h, info)
        else (h, info)
    let web := match o.webSearch with
      | .ok w => w
      | .error _ => ""
    let rec_ := match o.analystRec with
      | .ok r => r
      | .error _ => ""
    some { ticker := ticker, stockInfo := histInfo.2, historical := histInfo.1,
           webSearch := web, analystRec := rec_ }

/-- The structured LLM output (`AnalysisResult` pydantic model, lines 37-61),
as produced by `llm.with_structured_output(AnalysisResult)`. -/
structure AnalysisOut where
  analysisType : String
  ticker : Option String := none
  companyName : Option String := none
  currentPrice : Option ℚ := none
  analysis : String := ""
  historical : Option String := none
  analystRecommendation : Option String := none
  query : Option String := none
  error : Option String := none
deriving Repr, DecidableEq

/-- The result dictionary of `FinancialAnalyst.analyze`.  A field is `none`
when the corresponding key is absent from (or `None` in) the dictionary the
source builds.  The `metrics`, `period` and `stocks` keys are glue copied
from `stock_info` and from the per-ticker collection; no claim reads them
and they are omitted. -/
structure AnalyzeResult where
  analysisType : String
  ticker : Option String := none
  companyName : Option String := none
  currentPrice : Option ℚ := none
  analysis : String := ""
  error : Option String := none
  historical : Option String := none
  analystRecommendation : Option String := none
  query : Option String := none
deriving Repr, DecidableEq

/-- The single-path fallback dictionary built when the structured LLM call
raises (lines 547-578). -/
def fallbackSingleResult (cd : CollectedData) : AnalyzeResult :=
  { analysisType := "single",
    ticker := some cd.ticker,
    companyName := some (cd.stockInfo.companyName.getD "Unknown"),
    currentPrice := some (cd.stockInfo.currentPrice.getD 0),
    analysis := cd.stockInfo.companyName.getD "Unknown" ++ " 주식에 대한 분석 데이터를 수집했습니다.",
    historical := some cd.historical,
    analystRecommendation := some "N/A" }

/-- Embedding of `FinancialAnalyst._generate_analysis` (lines 470-578): on success the
structured output is returned with `historical` overwritten by the collected
series (line 540); a raised structured call falls back to the templated
`single` result. -/
def generateAnalysis (cd : CollectedData) (synth : Except String AnalysisOut) : AnalyzeResult :=
  match synth with
  | .ok out =>
    { analysisType := out.analysisType, ticker := out.ticker, companyName := out.companyName,
      currentPrice := out.currentPrice, analysis := out.analysis, error := out.error,
      historical := some cd.historical, analystRecommendation := out.analystRecommendation,
      query := out.query }
  | .error _ => fallbackSingleResult cd

/-- Embedding of `FinancialAnalyst._handle_concept_query` (lines 580-613). -/
def handleConceptQuery (query : String) (concept : Except String String) : AnalyzeResult :=
  match concept with
  | .ok expl =>
    { analysisType := "concept", query := some query, analysis := pyStrip expl }
  | .error e =>
    { analysisType := "error", query := some query,
      analysis := "질문을 처리할 수 없습니다: " ++ e, error := some e }

/-- The error dictionary `analyze` returns when single-ticker collection
yields no data (lines 115-123). -/
def collectFailResult (ticker : String) : AnalyzeResult :=
  { analysisType := "error", ticker := some ticker, companyName := some "Unknown",
    currentPrice := some 0, analysis := ticker ++ " 주식 정보를 가져올 수 없습니다.",
    error := some "데이터 수집 실패" }

/-- Embedding of `FinancialAnalyst._generate_comparison_analysis` (lines 410-468): the
structured output, or the comparison fallback dictionary on a raised call. -/
def generateComparisonAnalysis (stocksData : List CollectedData)
    (synth : Except String AnalysisOut) : AnalyzeResult :=
  match synth with
  | .ok out =>
    { analysisType := out.analysisType, ticker := out.ticker, companyName := out.companyName,
      currentPrice := out.currentPrice, analysis := out.analysis, error := out.error,
      historical := out.historical, analystRecommendation := out.analystRecommendation,
      query := out.query }
  | .error _ =>
    { analysisType := "comparison",
      analysis := toString stocksData.length ++ "개 종목의 데이터를 수집했으나 비교 분석 생성에 실패했습니다." }

/-- Embedding of `FinancialAnalyst._compare_multiple_stocks` (lines 330-408): collect per
ticker, discard tickers whose collection failed, error out only if all
failed. -/
def compareMultipleStocks (tickers : List String) (fetch : Nat → FetchOracles)
    (synth : Except String AnalysisOut) : AnalyzeResult :=
  let stocksData := tickers.enum.filterMap (fun p => collectStockData p.2 (fetch p.1))
  if stocksData = [] then
    { analysisType := "error", analysis := "모든 종목의 데이터 수집에 실패했습니다.",
      error := some "데이터 수집 실패" }
  else generateComparisonAnalysis stocksData synth

/-- Outcomes of the external calls one `analyze` run can make.  Each helper
call site may raise (`Except.error` carries `str(e)`); those raises are what
the top-level handler of `analyze` (lines 134-148) exists to catch. -/
structure AnalyzeOracles where
  extractTickers : Except String (List String)
  collect : FetchOracles
  synthSingle : Except String AnalysisOut
  concept : Except String String
  compareFetch : Nat → FetchOracles
  synthComparison : Except String AnalysisOut

/-- The body of `FinancialAnalyst.analyze` inside its top-level `try`
(lines 97-132): no ticker ⇒ concept path; one ticker ⇒ collect then
structured single analysis; several ⇒ comparison path. -/
def analyzeBody (query : String) (o : AnalyzeOracles) : Except String AnalyzeResult := do
  let tickers ← o.extractTickers
  match tickers with
  | [] => pure (handleConceptQuery query o.concept)
  | [t] =>
    match collectStockData t o.collect with
    | none => pure (collectFailResult t)
    | some cd => pure (generateAnalysis cd o.synthSingle)
  | ts => pure (compareMultipleStocks ts o.compareFetch o.synthComparison)

/-- The top-level error dictionary of `analyze` (lines 139-148). -/
def mkTopLevelErrorResult (e : String) : AnalyzeResult :=
  { analysisType := "error", ticker := some "ERROR", companyName := some "Error",
    currentPrice := some 0, analysis := "분석 중 오류가 발생했습니다: " ++ e, error := some e }

/-- Embedding of `FinancialAnalyst.analyze` (lines 83-148): the body's result, with any
raise converted by the top-level handler. -/
def analyze (query : String) (o : AnalyzeOracles) : AnalyzeResult :=
  match analyzeBody query o with
  | .ok r => r
  | .error e => mkTopLevelErrorResult e

/-- C8: `analyze` never propagates an exception — it always returns a plain
result dictionary, and whenever its body raises `e`, the returned dictionary
is the top-level error dictionary, with analysis_type "error" and the
exception message carried in both the analysis and the error fields. -/
theorem claim_C8_analyze_nonthrowing (query : String) (o : AnalyzeOracles) (e : String)
    (h : analyzeBody query o = .error e) :
    analyze query o = mkTopLevelErrorResult e ∧
    (analyze query o).analysisType = "error" ∧
    (analyze query o).analysis = "분석 중 오류가 발생했습니다: " ++ e ∧
    (analyze query o).error = some e := by
  simp [analyze, h, mkTopLevelErrorResult]

/-- A concrete oracle assignment whose ticker-extraction call raises. -/
def c8Oracles : AnalyzeOracles :=
  { extractTickers := .error "LLM timeout",
    collect := FetchOracles.mk none (.error "x") (.error "x") none (.error "x") (.error "x"),
    synthSingle := .error "x", concept := .error "x",
    compareFetch := fun _ =>
      FetchOracles.mk none (.error "x") (.error "x") none (.error "x") (.error "x"),
    synthComparison := .error "x" }

/-- Witness for C8: a ticker-extraction call that raises "LLM timeout". -/
theorem claim_C8_analyze_nonthrowing_witness :
    analyze "애플 주가" c8Oracles = mkTopLevelErrorResult "LLM timeout" :=
  (claim_C8_analyze_nonthrowing "애플 주가" c8Oracles "LLM timeout" rfl).1

/-- C9: in the single-ticker path each of the four sub-fetches is
independently caught — when exactly one fails, collection still succeeds and
the other three fields hold their fetched values while the failed one
degrades to its `{}`/`""` default (for a failed stock-info fetch, the
hypothesis `p = none` pins the 52-week backfill outcome; for failed
web/recommendation fetches, the 52-week hypotheses disable the backfill
rewrite of a successfully fetched info record); and the analysis is not
aborted: the single path still runs and, with the synthesis call raising or
labelling its output "single", the result's analysis_type is "single". -/
theorem claim_C9_partial_tool_failure (t : String) (i : StockInfo) (h w r e : String)
    (p : Option (ℚ × ℚ)) :
    (p = none →
      collectStockData t (FetchOracles.mk none (.error e) (.ok h) p (.ok w) (.ok r)) =
        some { ticker := t, stockInfo := emptyStockInfo, historical := h,
               webSearch := w, analystRec := r }) ∧
    (collectStockData t (FetchOracles.mk none (.ok i) (.error e) p (.ok w) (.ok r)) =
        some { ticker := t, stockInfo := i, historical := "",
               webSearch := w, analystRec := r }) ∧
    (i.week52High ≠ 0 → i.week52Low ≠ 0 →
      collectStockData t (FetchOracles.mk none (.ok i) (.ok h) p (.error e) (.ok r)) =
        some { ticker := t, stockInfo := i, historical := h,
               webSearch := "", analystRec := r }) ∧
    (i.week52High ≠ 0 → i.week52Low ≠ 0 →
      collectStockData t (FetchOracles.mk none (.ok i) (.ok h) p (.ok w) (.error e)) =
        some { ticker := t, stockInfo := i, historical := h,
               webSearch := w, analystRec := "" }) ∧
    (∀ (o : AnalyzeOracles) (q : String), o.extractTickers = .ok [t] →
      o.collect.glueError = none →
      (o.synthSingle = .error e ∨ ∃ out, o.synthSingle = .ok out ∧ out.analysisType = "single") →
      ∃ cd, collectStockData t o.collect = some cd ∧
        analyze q o = generateAnalysis cd o.synthSingle ∧
        (analyze q o).analysisType = "single") := by
  refine ⟨fun hp => ?_, ?_, fun h1 h2 => ?_, fun h1 h2 => ?_, ?_⟩
  · subst hp
    simp [collectStockData, emptyStockInfo]
  · rfl
  · simp [collectStockData, h1, h2]
  · simp [collectStockData, h1, h2]
  · intro o q hext hglue hsynth
    obtain ⟨cd, hcd⟩ : ∃ cd, collectStockData t o.collect = some cd := by
      unfold collectStockData
      rw [hglue]
      exact ⟨_, rfl⟩
    have hb : analyzeBody q o = pure (generateAnalysis cd o.synthSingle) := by
      unfold analyzeBody
      rw [hext]
      show (match collectStockData t o.collect with
            | none => pure (collectFailResult t)
            | some cd => pure (generateAnalysis cd o.synthSingle) : Except String AnalyzeResult)
          = pure (generateAnalysis cd o.synthSingle)
      rw [hcd]
    have hrun : analyze q o = generateAnalysis cd o.synthSingle := by
      unfold analyze
      rw [hb]
      rfl
    refine ⟨cd, hcd, hrun, ?_⟩
    rw [hrun]
    rcases hsynth with hs | ⟨out, hs, hty⟩
    · rw [hs]
      rfl
    · rw [hs]
      exact hty

/-- Witness for C9: ticker "AAPL", a concrete info record with non-zero
52-week data, concrete fetched strings, a raising synthesis call. -/
theorem claim_C9_partial_tool_failure_witness :
    (collectStockData "AAPL"
        (FetchOracles.mk none (.error "boom")
          (.ok "AAPL hist") none (.ok "web text") (.ok "rec text")) =
      some { ticker := "AAPL", stockInfo := emptyStockInfo, historical := "AAPL hist",
             webSearch := "web text", analystRec := "rec text" }) ∧
    (collectStockData "AAPL"
        (FetchOracles.mk none
          (.ok (StockInfo.mk (some "Apple") (some "Apple Inc") (some 100) 120 80 []))
          (.ok "AAPL hist") none (.error "boom") (.ok "rec text")) =
      some { ticker := "AAPL",
             stockInfo := StockInfo.mk (some "Apple") (some "Apple Inc") (some 100) 120 80 [],
             historical := "AAPL hist", webSearch := "", analystRec := "rec text" }) ∧
    (analyze "애플 분석"
        { extractTickers := .ok ["AAPL"],
          collect := FetchOracles.mk none (.error "boom") (.ok "AAPL hist") none
            (.ok "web text") (.ok "rec text"),
          synthSingle := .error "boom", concept := .ok "n/a",
          compareFetch := fun _ => FetchOracles.mk none (.error "x") (.error "x") none
            (.error "x") (.error "x"),
          synthComparison := .error "x" }).analysisType = "single" := by
  have base := claim_C9_partial_tool_failure "AAPL"
    (StockInfo.mk (some "Apple") (some "Apple Inc") (some 100) 120 80 [])
    "AAPL hist" "web text" "rec text" "boom" none
  refine ⟨base.1 rfl, base.2.2.1 (by norm_num) (by norm_num), ?_⟩
  obtain ⟨cd, -, -, hty⟩ := base.2.2.2.2
    { extractTickers := .ok ["AAPL"],
      collect := FetchOracles.mk none (.error "boom") (.ok "AAPL hist") none
        (.ok "web text") (.ok "rec text"),
      synthSingle := .error "boom", concept := .ok "n/a",
      compareFetch := fun _ => FetchOracles.mk none (.error "x") (.error "x") none
        (.error "x") (.error "x"),
      synthComparison := .error "x" }
    "애플 분석" rfl rfl (Or.inl rfl)
  exact hty

end FA

namespace RG

/-!
Embedding of `src/agents/report_generator.py` (`ReportGenerator`).

The structured plan call (`_create_plan`) is an oracle
`Except String ReportPlan`; the three tools (`draw_stock_chart`,
`draw_valuation_radar`, `save_report_to_file`) are oracles
`Except Unit String` returning their status message; the fallback renderer
`_generate_report_directly` (pure templating over `analysis_data`, no claim
reads its text) is an oracle `Except Unit String` whose `.error` models the
bare-`except` path of lines 215-222.  File-name construction (`safe_title`,
lines 164-166) and the chart-path merge with prior charts (lines 170-173)
are write-only glue not read by any claim and are omitted.
-/

/-- The `ReportPlan` structured output model (lines 29-39). -/
structure ReportPlan where
  needsStockChart : Bool
  needsValuationChart : Bool
  needsSave : Bool
  saveFormat : Option String
  reportTitle : String
  reportText : String
deriving Repr, DecidableEq

/-- Whitespace tokenizer: the non-empty maximal whitespace-free runs of a
character list, `acc` holding the (reversed) token in progress. -/
def wsTokens (acc : List Char) : List Char → List (List Char)
  | [] => if acc = [] then [] else [acc.reverse]
  | c :: rest =>
    if c.isWhitespace then
      if acc = [] then wsTokens [] rest else acc.reverse :: wsTokens [] rest
    else wsTokens (c :: acc) rest

/-- Embedding of `len(user_request.strip().split())` (lines 244-245): Python's no-argument
`split` splits on whitespace runs and produces no empty tokens (so the prior
`strip` cannot change the count). -/
def wordCount (s : String) : Nat :=
  (wsTokens [] s.data).length

/-- Embedding of `ReportGenerator._validate_explicit_requests` (lines 224-281).  For a
request of at most 3 words: a plan asking to save is returned at once with
only the save flags cleared (lines 250-260, the chart flags keep the LLM's
values); otherwise a plan asking for a chart gets both chart flags cleared
(lines 263-273); longer requests pass through unchanged. -/
def validateExplicitRequests (userRequest : String) (plan : ReportPlan) : ReportPlan :=
  if wordCount userRequest ≤ 3 then
    if plan.needsSave then
      { plan with needsSave := false, saveFormat := none }
    else if plan.needsStockChart || plan.needsValuationChart then
      { plan with needsStockChart := false, needsValuationChart := false }
    else plan
  else plan

/-- Longest whitespace-free run at the head of a character list (for the
regex classes `[^\s]+`). -/
def nonWsRun : List Char → List Char
  | [] => []
  | c :: rest => if c.isWhitespace then [] else c :: nonWsRun rest

/-- Greedy body search for the `[^\s]+` part of a path regex: try body
lengths from `b` down to 1, requiring the body to stay inside the
whitespace-free run and one of the suffix alternatives to follow it
literally. -/
def tryBody (sufs : List (List Char)) (rest : List Char) : Nat → Option (List Char × List Char)
  | 0 => none
  | b + 1 =>
    match sufs.find? (fun sf => sf.isPrefixOf (rest.drop (b + 1))) with
    | some sf =>
      if b + 1 ≤ (nonWsRun rest).length then some (rest.take (b + 1), sf)
      else tryBody sufs rest b
    | none => tryBody sufs rest b

/-- Leftmost match of `pre [^\s]+ (suffix alternative)`, modelling
`re.search(r'(charts/[^\s]+\.png)', ...)` (line 135) and
`re.search(r'(reports/[^\s]+\.(pdf|md|txt))', ...)` (line 184). -/
def searchPathToken (pre : List Char) (sufs : List (List Char)) : List Char → Option String
  | [] => none
  | c :: rest =>
    (if pre.isPrefixOf (c :: rest) then
      match tryBody sufs ((c :: rest).drop pre.length)
          (nonWsRun ((c :: rest).drop pre.length)).length with
      | some bodySf => some (String.mk (pre ++ bodySf.1 ++ bodySf.2))
      | none => none
    else none).orElse (fun _ => searchPathToken pre sufs rest)

/-- Chart-path extraction from a chart tool's message (line 135). -/
def extractChartPath (msg : String) : Option String :=
  searchPathToken "charts/".data [".png".data] msg.data

/-- Report-path extraction from the save tool's message (line 184). -/
def extractReportPath (msg : String) : Option String :=
  searchPathToken "reports/".data [".pdf".data, ".md".data, ".txt".data] msg.data

/-- The success gate applied to each tool message
(`"성공" in result or "저장" in result`, lines 132, 150, 182). -/
def toolMsgOk (msg : String) : Bool :=
  strContains msg "성공" || strContains msg "저장"

/-- Outcomes of the three tool calls of one `generate_report` run. -/
structure ToolOracles where
  stockChart : Except Unit String
  valuationChart : Except Unit String
  save : Except Unit String

/-- The dictionary `generate_report` returns (line 87: report, status,
charts, saved_path; error added on the fallback paths). -/
structure ReportResult where
  report : String
  status : String
  charts : List String
  savedPath : Option String
  error : Option String
deriving Repr, DecidableEq

/-- Python truthiness of `plan.save_format` in
`if plan.needs_save and plan.save_format:` (line 160). -/
def saveFormatTruthy (plan : ReportPlan) : Bool :=
  match plan.saveFormat with
  | some f => f ≠ ""
  | none => false

/-- One chart tool execution (lines 125-157): gated on the plan flag, the
raised call caught and skipped, the message gated and a path extracted. -/
def chartStep (flag : Bool) (tool : Except Unit String) : List String :=
  if flag then
    match tool with
    | .ok msg =>
      if toolMsgOk msg then
        match extractChartPath msg with
        | some path => [path]
        | none => []
      else []
    | .error _ => []
  else []

/-- Embedding of `ReportGenerator.generate_report` (lines 68-222). -/
def generateReport (userRequest : String) (analysisDataEmpty : Bool)
    (planOutcome : Except String ReportPlan) (tools : ToolOracles)
    (fallbackText : Except Unit String) : ReportResult :=
  if analysisDataEmpty then
    { report := "❌ 분석 데이터가 없습니다.", status := "error", charts := [],
      savedPath := none, error := none }
  else
    match planOutcome with
    | .error e =>
      match fallbackText with
      | .ok text =>
        { report := text, status := "partial", charts := [], savedPath := none,
          error := some e }
      | .error _ =>
        { report := "❌ 보고서 생성 중 오류가 발생했습니다: " ++ e, status := "error",
          charts := [], savedPath := none, error := some e }
    | .ok plan0 =>
      let plan := validateExplicitRequests userRequest plan0
      let charts := chartStep plan.needsStockChart tools.stockChart ++
        chartStep plan.needsValuationChart tools.valuationChart
      let savedPath :=
        if plan.needsSave && saveFormatTruthy plan then
          match tools.save with
          | .ok msg => if toolMsgOk msg then extractReportPath msg else none
          | .error _ => none
        else none
      { report := plan.reportText, status := "success", charts := charts,
        savedPath := savedPath, error := none }

/-- A short request's plan asking for both charts and a save, for C10. -/
def c10Plan : ReportPlan :=
  { needsStockChart := true, needsValuationChart := true, needsSave := true,
    saveFormat := some "pdf", reportTitle := "애플 분석", reportText := "보고서 본문입니다" }

/-- Successful tool messages, for C10. -/
def c10Tools : ToolOracles :=
  { stockChart := .ok "주가 차트 생성 성공: charts/stock_chart.png",
    valuationChart := .ok "밸류에이션 차트 생성 성공: charts/valuation_radar.png",
    save := .ok "저장 성공: reports/report.pdf" }

/-- C10 counterexample: the request "애플 주가" has 2 whitespace-separated
tokens, and the plan requests both charts and a save; the validated plan
still has both chart flags true (the save branch of
`_validate_explicit_requests` returns early, lines 250-260, without touching
them), and the executed run does create charts — so the validated plan does
not have all of those flags overridden to false and a short request can
trigger chart creation. -/
theorem claim_C10_counterexample :
    wordCount "애플 주가" ≤ 3 ∧
    c10Plan.needsSave = true ∧ c10Plan.needsStockChart = true ∧
    (validateExplicitRequests "애플 주가" c10Plan).needsStockChart = true ∧
    (validateExplicitRequests "애플 주가" c10Plan).needsValuationChart = true ∧
    (generateReport "애플 주가" false (.ok c10Plan) c10Tools (.ok "대체 보고서")).charts =
      ["charts/stock_chart.png", "charts/valuation_radar.png"] := by
  decide

/-- C10 as amended: for a request of at most 3 tokens, the validated plan
always has needs_save false — so a short request never triggers file saving
(saved_path stays empty) — and save_format is cleared when the plan asked to
save; the chart flags, however, are overridden to false only when the plan
did not also ask to save: when it did, they keep the LLM's values, so a
short request can still trigger chart creation. -/
theorem claim_C10_short_request_guard (userRequest : String) (plan : ReportPlan)
    (h : wordCount userRequest ≤ 3) :
    (validateExplicitRequests userRequest plan).needsSave = false ∧
    (plan.needsSave = true →
      (validateExplicitRequests userRequest plan).saveFormat = none ∧
      (validateExplicitRequests userRequest plan).needsStockChart = plan.needsStockChart ∧
      (validateExplicitRequests userRequest plan).needsValuationChart = plan.needsValuationChart) ∧
    (plan.needsSave = false →
      (validateExplicitRequests userRequest plan).needsStockChart = false ∧
      (validateExplicitRequests userRequest plan).needsValuationChart = false) ∧
    (∀ (tools : ToolOracles) (fb : Except Unit String),
      (generateReport userRequest false (.ok plan) tools fb).savedPath = none) := by
  have hv : (validateExplicitRequests userRequest plan).needsSave = false := by
    cases hs : plan.needsSave <;>
      cases h1 : plan.needsStockChart <;>
      cases h2 : plan.needsValuationChart <;>
      simp [validateExplicitRequests, h, hs, h1, h2]
  refine ⟨hv, fun hs => ?_, fun hs => ?_, fun tools fb => ?_⟩
  · simp [validateExplicitRequests, h, hs]
  · cases h1 : plan.needsStockChart <;>
      cases h2 : plan.needsValuationChart <;>
      simp [validateExplicitRequests, h, hs, h1, h2]
  · simp [generateReport, hv]

/-- Witness for C10 (amended) at the concrete short request and plan of the
counterexample: save suppressed, no file saved. -/
theorem claim_C10_short_request_guard_witness :
    (validateExplicitRequests "애플 주가" c10Plan).needsSave = false ∧
    (validateExplicitRequests "애플 주가" c10Plan).saveFormat = none ∧
    (generateReport "애플 주가" false (.ok c10Plan) c10Tools (.ok "대체 보고서")).savedPath =
      none := by
  have base := claim_C10_short_request_guard "애플 주가" c10Plan (by decide)
  exact ⟨base.1, (base.2.1 (by decide)).1, base.2.2.2 c10Tools (.ok "대체 보고서")⟩

end RG

namespace WF

/-!
Embedding of `src/workflow/workflow.py` (`Workflow` and its compiled graph).

Each node's LLM/tool interactions are per-traversal oracles: one
`TraversalOracle` holds the outcomes of all external calls one pass through
the graph can make, and a run is driven by a stream `Nat → TraversalOracle`
(iteration `i` uses the `i`-th element), so the theorems quantify over every
question and every sequence of evaluator outcomes.  The helpers
`request_analysis`, `supervisor`, `rewrite_query` and `Retriever.retrieve`
are imported from modules not present under `src/`; they are modelled as
oracles whose result shapes follow how `workflow.py` reads them (matching
spec sections 4.1, 4.2, 4.4 and 4.7).  The write-only state keys
`session_id`, `rag_search_results` and `agent_scratchpad` are not read by
any node logic or claim and are omitted from the state model;
`quality_detail` stores the evaluator-outcome projection the node actually
reads (status and failure_reason).
-/

/-- A conversation message (`HumanMessage` / `AIMessage`). -/
inductive Msg
  | human (content : String)
  | ai (content : String)
deriving Repr, DecidableEq

/-- The `analysis_data` dictionary as the graph sees it: its type tag, the
rag documents, and the chart/save keys appended by `report_generator_node`
(lines 361-369).  The remaining contents are produced and consumed by the
agents and are opaque to the graph. -/
structure AnalysisData where
  analysisType : String
  documents : List String := []
  chartPaths : List String := []
  savedFilePath : Option String := none
deriving Repr, DecidableEq

/-- What `quality_evaluator_node` reads from the evaluator's result
dictionary: `result.get("status")` and `result.get("failure_reason", ...)`. -/
structure EvalOutcome where
  status : String
  failureReason : Option String
deriving Repr, DecidableEq

/-- The `rewrite_query` result dictionary (spec 4.7: needs_user_input,
rewritten_query, request_for_detail_msg), read at lines 448-454. -/
structure RewriteOutcome where
  needsUserInput : Bool
  rewrittenQuery : Option String
  requestForDetailMsg : Option String
deriving Repr, DecidableEq

/-- The `request_analysis` result dictionary (spec 4.1), read at
lines 134-139: a label and an optional canned message. -/
structure RAOutcome where
  label : Option String
  returnMsg : Option String
deriving Repr, DecidableEq

/-- What `report_generator_node` reads from `generate_report`'s result
(lines 344-369). -/
structure ReportOutcome where
  report : String
  charts : List String
  savedPath : Option String
deriving Repr, DecidableEq

/-- Outcomes of the external calls `report_generator_node` can make:
the retriever's documents, the financial-analyst fallback call
(`.ok none` models a falsy/non-dict return, `.error` a raise), and the
`generate_report` call under the node's handler (lines 336-373). -/
structure RGOracle where
  retrieveDocs : List String
  fallbackAnalyze : Except String (Option AnalysisData)
  reportCall : Except String (Option ReportOutcome)

/-- Embedding of `WorkflowState` (lines 22-44), restricted to the keys the graph logic
reads or the claims mention. -/
structure WorkflowState where
  question : String
  answer : String
  route : String
  requestType : Option String
  analysisData : Option AnalysisData
  qualityPassed : Bool
  qualityDetail : Option EvalOutcome
  retries : Nat
  previousFailureReason : String
  consecutiveSameFailures : Nat
  messages : List Msg
  currentCharts : List String
  currentSavedFile : Option String
deriving Repr, DecidableEq

/-- The follow-up vocabulary of `request_analyst_node` (line 123). -/
def followUpKeywords : List String :=
  ["그래프", "차트", "저장", "그려", "다운로드", "파일", "pdf", "md", "markdown", "보고서"]

/-- Embedding of `Workflow.request_analyst_node` (lines 113-141). -/
def requestAnalystNode (ra : RAOutcome) (s : WorkflowState) : WorkflowState :=
  let question := pyStrip s.question
  if question = "" then
    { s with answer := "질문이 비어 있어 답변을 드릴 수 없습니다.", route := "end" }
  else if s.analysisData.isSome ∧
      followUpKeywords.any (fun k => strContains (pyLower question) k) then
    { s with route := "report_generator", requestType := some "financial_analyst" }
  else if ra.label = some "finance" then
    { s with route := "supervisor" }
  else
    { s with answer := ra.returnMsg.getD "경제, 금융관련 질문이 아닙니다.", route := "end" }

/-- Embedding of `Workflow.supervisor_node` (lines 143-159). -/
def supervisorNode (agentChoice : String) (s : WorkflowState) : WorkflowState :=
  if agentChoice = "financial_analyst" then
    { s with route := "financial_analyst" }
  else if agentChoice = "vector_search_agent" then
    { s with route := "report_generator", requestType := some "rag" }
  else
    { s with route := "general_conversation" }

/-- Embedding of `Workflow.financial_analyst_node` (lines 161-190): the analyst call's
raise or falsy return is converted to a terminal answer with route "end"
(the unconditional graph edge still sends the state to
`report_generator`). -/
def financialAnalystNode (fa : Except String (Option AnalysisData)) (s : WorkflowState) :
    WorkflowState :=
  match fa with
  | .ok (some d) => { s with analysisData := some d, requestType := some "financial_analyst" }
  | .ok none =>
    { s with answer := "죄송합니다. 주식 분석 중 문제가 발생했습니다. 다시 시도해주세요.", route := "end" }
  | .error e =>
    { s with answer := "주식 분석 중 오류가 발생했습니다: " ++ e, route := "end" }

/-- Embedding of `Workflow.general_conversation_node` (lines 192-263): rule-based
greetings/thanks/goodbyes, meta questions over the prior human messages,
then the LLM with its own handler; every branch routes "end". -/
def generalConversationNode (llm : Except String String) (s : WorkflowState) : WorkflowState :=
  let q := pyStrip s.question
  let ql := pyLower q
  if ["안녕", "하이", "hi", "hello", "헬로"].any (fun g => strContains ql g) then
    { s with answer := "안녕하세요! 금융 관련 궁금한 점이 있으시면 언제든 물어보세요. 📊", route := "end" }
  else if ["고마", "감사", "thanks", "thank you", "땡큐"].any (fun t => strContains ql t) then
    { s with answer := "도움이 되었다니 기쁩니다! 다른 궁금한 점이 있으시면 말씀해주세요. 😊", route := "end" }
  else if ["잘가", "안녕히", "bye", "goodbye", "바이"].any (fun g => strContains ql g) then
    { s with answer := "좋은 하루 되세요! 언제든 다시 찾아주세요. 👋", route := "end" }
  else if ["방금", "아까", "전에", "처음", "첫", "이전"].any (fun m => strContains ql m) then
    let userMessages := s.messages.filterMap (fun m =>
      match m with
      | .human c => some c
      | .ai _ => none)
    match userMessages.getLast? with
    | some prev =>
      { s with answer := "방금 물어보신 질문은 \"" ++ prev ++ "\" 입니다.", route := "end" }
    | none =>
      { s with answer := "이전 질문이 없습니다. 지금 처음 대화를 시작하신 것 같네요!", route := "end" }
  else
    match llm with
    | .ok content => { s with answer := pyStrip content, route := "end" }
    | .error _ =>
      { s with answer := "죄송합니다. 응답 생성 중 문제가 발생했습니다. 다시 시도해주세요.", route := "end" }

/-- Report generation with the node's handler (lines 336-374): the answer is
the report text, the current-turn chart/file keys are refreshed, and
produced artifacts are recorded into `analysis_data` for follow-ups. -/
def runReport (call : Except String (Option ReportOutcome)) (s : WorkflowState)
    (d : AnalysisData) : WorkflowState :=
  match call with
  | .error e => { s with answer := "보고서 생성 중 오류가 발생했습니다: " ++ e }
  | .ok none => { s with answer := "보고서 생성 중 문제가 발생했습니다." }
  | .ok (some rep) =>
    let s1 := { s with answer := rep.report, currentCharts := rep.charts,
                       currentSavedFile := rep.savedPath }
    if rep.charts ≠ [] ∨ rep.savedPath.isSome then
      let d1 := if rep.charts ≠ [] then { d with chartPaths := rep.charts } else d
      let d2 := match rep.savedPath with
        | some p => { d1 with savedFilePath := some p }
        | none => d1
      { s1 with analysisData := some d2 }
    else s1

/-- Embedding of `Workflow.report_generator_node` (lines 265-375): rag retrieval with
analyst fallback, or the stored analysis data; the early-return error
branches set only the answer (route is left as it was; the unconditional
edge to `quality_evaluator` follows regardless). -/
def reportGeneratorNode (o : RGOracle) (s : WorkflowState) : WorkflowState :=
  if s.requestType.getD "rag" = "rag" then
    if o.retrieveDocs = [] then
      match o.fallbackAnalyze with
      | .ok (some d) =>
        runReport o.reportCall
          { s with analysisData := some d, requestType := some "financial_analyst" } d
      | .ok none =>
        { s with answer := "죄송합니다. 데이터베이스와 웹 검색 모두에서 관련 정보를 찾을 수 없습니다.\n\n다른 주제로 질문해주시거나, 질문을 더 구체적으로 작성해주세요." }
      | .error _ =>
        { s with answer := "죄송합니다. 정보를 찾는 과정에서 오류가 발생했습니다.\n잠시 후 다시 시도해주세요." }
    else
      runReport o.reportCall
        { s with analysisData := some { analysisType := "rag", documents := o.retrieveDocs } }
        { analysisType := "rag", documents := o.retrieveDocs }
  else
    match s.analysisData with
    | none => { s with answer := "분석 데이터를 찾을 수 없습니다. 다시 시도해주세요." }
    | some d => runReport o.reportCall s d

/-- The generic early-termination apology of `quality_evaluator_node`
(lines 402-405 and 430-433, identical text). -/
def retryApology : String :=
  "죄송합니다. 여러 시도에도 만족스러운 답변을 생성하지 못했습니다.\n\n질문을 더 구체적으로 작성하시거나, 다른 방식으로 표현해주시면 더 나은 답변을 드릴 수 있습니다."

/-- The technical apology used when the repeated failure reason is "error"
(lines 422-428). -/
def repeatedErrorApology : String :=
  "죄송합니다. 시스템에서 해당 질문을 처리하는 데 반복적으로 문제가 발생했습니다.\n\n다음을 시도해보세요:\n1. 질문을 다르게 표현해주세요\n2. 더 구체적인 정보를 포함해주세요 (예: 회사명, 날짜 등)\n3. 다른 주제로 질문해주세요"

/-- Embedding of `Workflow.quality_evaluator_node` (lines 377-464): store the evaluation;
on fail, update the consecutive-failure counter, increment retries, apply
the two circuit breakers (retries cap first), then the rewrite step; on
pass, reset all counters and end. -/
def qualityEvaluatorNode (ev : EvalOutcome) (rw : RewriteOutcome) (s0 : WorkflowState) :
    WorkflowState :=
  let s := { s0 with qualityDetail := some ev, qualityPassed := ev.status = "pass" }
  if ev.status = "pass" then
    { s with retries := 0, consecutiveSameFailures := 0, previousFailureReason := "",
             route := "end" }
  else
    let currentFailure := ev.failureReason.getD "unknown"
    let s1 := { s with
      consecutiveSameFailures :=
        if currentFailure = s.previousFailureReason then s.consecutiveSameFailures + 1 else 1,
      previousFailureReason := currentFailure,
      retries := s.retries + 1 }
    if 2 ≤ s1.retries then
      { s1 with answer := retryApology, route := "end" }
    else if 2 ≤ s1.consecutiveSameFailures then
      { s1 with
        answer := if currentFailure = "error" then repeatedErrorApology else retryApology,
        route := "end" }
    else if rw.needsUserInput then
      { s1 with answer := rw.requestForDetailMsg.getD "질문을 좀 더 구체적으로 말씀해 주시겠어요? ",
                route := "end" }
    else
      { s1 with question := rw.rewrittenQuery.getD s0.question,
                answer := "질문을 다시 정제했습니다. 재시도합니다.", route := "retry" }

/-- Embedding of `Workflow._route_from_request_analyst` (lines 469-483). -/
def routeFromRequestAnalyst (s : WorkflowState) : String :=
  if s.route = "report_generator" then "report_generator"
  else if s.route = "end" then "end"
  else "supervisor"

/-- Embedding of `Workflow._route_from_supervisor` (lines 485-486):
`state.get("route", "financial_analyst")` (route `""` models a missing key;
`run` initialises it to `""`). -/
def routeFromSupervisor (s : WorkflowState) : String :=
  if s.route = "" then "financial_analyst" else s.route

/-- Embedding of `Workflow._route_from_quality_evaluator` (lines 488-495):
`state.get("route", "end")`. -/
def routeFromQualityEvaluator (s : WorkflowState) : String :=
  if s.route = "" then "end" else s.route

/-- Whether the fail branch of `quality_evaluator_node` reaches the
`rewrite_query` call (line 437), i.e. neither circuit breaker fires. -/
def qeCallsRewrite (ev : EvalOutcome) (s : WorkflowState) : Bool :=
  if ev.status = "pass" then false
  else
    let currentFailure := ev.failureReason.getD "unknown"
    let consec :=
      if currentFailure = s.previousFailureReason then s.consecutiveSameFailures + 1 else 1
    if 2 ≤ s.retries + 1 then false
    else if 2 ≤ consec then false
    else true

/-- Outcomes of all external calls of one traversal of the graph. -/
structure TraversalOracle where
  ra : RAOutcome
  sup : String
  fa : Except String (Option AnalysisData)
  rg : RGOracle
  gc : Except String String
  qe : EvalOutcome
  rw : RewriteOutcome

/-- The `report_generator → quality_evaluator` tail shared by every branch
that reaches it, together with this traversal's (evaluation count,
rewrite-call count). -/
def runQE (o : TraversalOracle) (s : WorkflowState) : WorkflowState × Nat × Nat :=
  let sMid := reportGeneratorNode o.rg s
  (qualityEvaluatorNode o.qe o.rw sMid, 1, if qeCallsRewrite o.qe sMid then 1 else 0)

/-- One traversal of the compiled graph from the `request_analyst` entry
point to END or to the retry edge (`_build_graph`, lines 62-108):
conditional edges from `request_analyst` and `supervisor`, unconditional
edges `financial_analyst → report_generator → quality_evaluator` and
`general_conversation → END`.  The final component pair counts quality
evaluations and rewrite calls of this traversal. -/
def traverseFull (o : TraversalOracle) (s : WorkflowState) : WorkflowState × Nat × Nat :=
  let s1 := requestAnalystNode o.ra s
  if routeFromRequestAnalyst s1 = "end" then (s1, 0, 0)
  else if routeFromRequestAnalyst s1 = "report_generator" then runQE o s1
  else
    let s2 := supervisorNode o.sup s1
    if routeFromSupervisor s2 = "financial_analyst" then runQE o (financialAnalystNode o.fa s2)
    else if routeFromSupervisor s2 = "report_generator" then runQE o s2
    else if routeFromSupervisor s2 = "general_conversation" then
      (generalConversationNode o.gc s2, 0, 0)
    else (s2, 0, 0)

/-- The request-analyst node leaves the retry counters and the question
untouched. -/
theorem requestAnalystNode_preserves (ra : RAOutcome) (s : WorkflowState) :
    (requestAnalystNode ra s).retries = s.retries ∧
    (requestAnalystNode ra s).previousFailureReason = s.previousFailureReason ∧
    (requestAnalystNode ra s).consecutiveSameFailures = s.consecutiveSameFailures ∧
    (requestAnalystNode ra s).question = s.question := by
  simp only [requestAnalystNode]
  split_ifs <;> simp

/-- Routes the request-analyst node can set. -/
theorem requestAnalystNode_route (ra : RAOutcome) (s : WorkflowState) :
    (requestAnalystNode ra s).route = "end" ∨
    (requestAnalystNode ra s).route = "report_generator" ∨
    (requestAnalystNode ra s).route = "supervisor" := by
  simp only [requestAnalystNode]
  split_ifs <;> simp

/-- The supervisor node leaves the retry counters and the question
untouched. -/
theorem supervisorNode_preserves (c : String) (s : WorkflowState) :
    (supervisorNode c s).retries = s.retries ∧
    (supervisorNode c s).previousFailureReason = s.previousFailureReason ∧
    (supervisorNode c s).consecutiveSameFailures = s.consecutiveSameFailures ∧
    (supervisorNode c s).question = s.question := by
  simp only [supervisorNode]
  split_ifs <;> simp

/-- Routes the supervisor node can set (never "end": that edge label is
unreachable). -/
theorem supervisorNode_route (c : String) (s : WorkflowState) :
    (supervisorNode c s).route = "financial_analyst" ∨
    (supervisorNode c s).route = "report_generator" ∨
    (supervisorNode c s).route = "general_conversation" := by
  simp only [supervisorNode]
  split_ifs <;> simp

/-- The financial-analyst node leaves the retry counters and the question
untouched. -/
theorem financialAnalystNode_preserves (fa : Except String (Option AnalysisData))
    (s : WorkflowState) :
    (financialAnalystNode fa s).retries = s.retries ∧
    (financialAnalystNode fa s).previousFailureReason = s.previousFailureReason ∧
    (financialAnalystNode fa s).consecutiveSameFailures = s.consecutiveSameFailures ∧
    (financialAnalystNode fa s).question = s.question := by
  unfold financialAnalystNode
  cases fa with
  | error e => simp
  | ok v => cases v <;> simp

/-- The report-generator node leaves the retry counters and the question
untouched. -/
theorem reportGeneratorNode_preserves (o : RGOracle) (s : WorkflowState) :
    (reportGeneratorNode o s).retries = s.retries ∧
    (reportGeneratorNode o s).previousFailureReason = s.previousFailureReason ∧
    (reportGeneratorNode o s).consecutiveSameFailures = s.consecutiveSameFailures ∧
    (reportGeneratorNode o s).question = s.question := by
  simp only [reportGeneratorNode, runReport]
  split_ifs <;> (repeat' split) <;> simp

/-- The general-conversation node leaves the retry counters untouched and
always routes "end". -/
theorem generalConversationNode_spec (g : Except String String) (s : WorkflowState) :
    (generalConversationNode g s).retries = s.retries ∧
    (generalConversationNode g s).route = "end" := by
  simp only [generalConversationNode]
  split_ifs <;> (repeat' split) <;> simp

/-- Pass branch of the quality evaluator: all counters reset, route "end"
(claim C3's property). -/
theorem qe_pass_fields (ev : EvalOutcome) (rwo : RewriteOutcome) (s : WorkflowState)
    (h : ev.status = "pass") :
    (qualityEvaluatorNode ev rwo s).retries = 0 ∧
    (qualityEvaluatorNode ev rwo s).consecutiveSameFailures = 0 ∧
    (qualityEvaluatorNode ev rwo s).previousFailureReason = "" ∧
    (qualityEvaluatorNode ev rwo s).route = "end" ∧
    (qualityEvaluatorNode ev rwo s).qualityPassed = true := by
  simp [qualityEvaluatorNode, h]

/-- Fail branch of the quality evaluator: retries is incremented exactly
once and the failure reason is recorded. -/
theorem qe_fail_fields (ev : EvalOutcome) (rwo : RewriteOutcome) (s : WorkflowState)
    (h : ev.status ≠ "pass") :
    (qualityEvaluatorNode ev rwo s).retries = s.retries + 1 ∧
    (qualityEvaluatorNode ev rwo s).previousFailureReason = ev.failureReason.getD "unknown" := by
  simp only [qualityEvaluatorNode, if_neg h]
  split_ifs <;> simp

/-- The quality evaluator exits with route "end" or "retry". -/
theorem qe_route_cases (ev : EvalOutcome) (rwo : RewriteOutcome) (s : WorkflowState) :
    (qualityEvaluatorNode ev rwo s).route = "end" ∨
    (qualityEvaluatorNode ev rwo s).route = "retry" := by
  by_cases h : ev.status = "pass"
  · exact Or.inl (qe_pass_fields ev rwo s h).2.2.2.1
  · simp only [qualityEvaluatorNode, if_neg h]
    split_ifs <;> simp

/-- Retries never grow by more than one in the evaluator node. -/
theorem qe_retries_le (ev : EvalOutcome) (rwo : RewriteOutcome) (s : WorkflowState) :
    (qualityEvaluatorNode ev rwo s).retries ≤ s.retries + 1 := by
  by_cases h : ev.status = "pass"
  · have := qe_pass_fields ev rwo s h
    omega
  · have := qe_fail_fields ev rwo s h
    omega

/-- As soon as the incremented retries counter reaches the cap 2, the
evaluator node terminates with route "end" (lines 398-407), before any
rewrite. -/
theorem qe_cap_ends (ev : EvalOutcome) (rwo : RewriteOutcome) (s : WorkflowState)
    (h : ev.status ≠ "pass") (hr : 2 ≤ s.retries + 1) :
    (qualityEvaluatorNode ev rwo s).route = "end" := by
  simp only [qualityEvaluatorNode, if_neg h]
  split_ifs <;> rfl

/-- The consecutive-same-failure breaker (lines 411-435) also exits with
route "end". -/
theorem qe_consec_ends (ev : EvalOutcome) (rwo : RewriteOutcome) (s : WorkflowState)
    (h : ev.status ≠ "pass") (h1 : ¬ 2 ≤ s.retries + 1)
    (h2 : 2 ≤ (if ev.failureReason.getD "unknown" = s.previousFailureReason then
      s.consecutiveSameFailures + 1 else 1)) :
    (qualityEvaluatorNode ev rwo s).route = "end" := by
  simp only [qualityEvaluatorNode, if_neg h, if_neg h1, if_pos h2]

/-- A "retry" exit forces the incoming retries to be 0 (the cap check fires
otherwise), the outgoing retries to be 1, and a rewrite call to have been
made. -/
theorem qe_retry_inv (ev : EvalOutcome) (rwo : RewriteOutcome) (s : WorkflowState)
    (h : (qualityEvaluatorNode ev rwo s).route = "retry") :
    s.retries = 0 ∧ (qualityEvaluatorNode ev rwo s).retries = 1 ∧
    qeCallsRewrite ev s = true := by
  by_cases hp : ev.status = "pass"
  · have hend := (qe_pass_fields ev rwo s hp).2.2.2.1
    rw [h] at hend
    exact absurd hend (by decide)
  · have h1 : ¬ 2 ≤ s.retries + 1 := by
      intro hr
      have hend := qe_cap_ends ev rwo s hp hr
      rw [h] at hend
      exact absurd hend (by decide)
    have h2 : ¬ 2 ≤ (if ev.failureReason.getD "unknown" = s.previousFailureReason then
        s.consecutiveSameFailures + 1 else 1) := by
      intro hc
      have hend := qe_consec_ends ev rwo s hp h1 hc
      rw [h] at hend
      exact absurd hend (by decide)
    have hfl := qe_fail_fields ev rwo s hp
    refine ⟨by omega, by omega, ?_⟩
    simp only [qeCallsRewrite, if_neg hp]
    rw [if_neg h1, if_neg h2]

/-- When neither breaker fires, the user-input flag decides between the
clarification exit and the retry exit carrying the rewritten question. -/
theorem qe_rewrite_exits (ev : EvalOutcome) (rwo : RewriteOutcome) (s : WorkflowState)
    (h : ev.status ≠ "pass") (hcall : qeCallsRewrite ev s = true) :
    (rwo.needsUserInput = true → (qualityEvaluatorNode ev rwo s).route = "end") ∧
    (rwo.needsUserInput = false →
      (qualityEvaluatorNode ev rwo s).route = "retry" ∧
      (qualityEvaluatorNode ev rwo s).question = rwo.rewrittenQuery.getD s.question ∧
      (qualityEvaluatorNode ev rwo s).retries = s.retries + 1 ∧
      (qualityEvaluatorNode ev rwo s).previousFailureReason = ev.failureReason.getD "unknown" ∧
      (qualityEvaluatorNode ev rwo s).consecutiveSameFailures =
        (if ev.failureReason.getD "unknown" = s.previousFailureReason then
          s.consecutiveSameFailures + 1 else 1)) := by
  simp only [qeCallsRewrite, if_neg h] at hcall
  have h1 : ¬ 2 ≤ s.retries + 1 := by
    intro hx
    rw [if_pos hx] at hcall
    exact absurd hcall (by decide)
  rw [if_neg h1] at hcall
  have h2 : ¬ 2 ≤ (if ev.failureReason.getD "unknown" = s.previousFailureReason then
      s.consecutiveSameFailures + 1 else 1) := by
    intro hx
    rw [if_pos hx] at hcall
    exact absurd hcall (by decide)
  simp only [qualityEvaluatorNode, if_neg h, if_neg h1, if_neg h2]
  constructor
  · intro hu
    rw [if_pos hu]
  · intro hu
    rw [if_neg (show ¬ rwo.needsUserInput = true by simp [hu])]
    simp

/-- The routing helper maps to "end" only when the node set route "end". -/
theorem routeFromRequestAnalyst_end_route (s : WorkflowState)
    (h : routeFromRequestAnalyst s = "end") : s.route = "end" := by
  unfold routeFromRequestAnalyst at h
  split_ifs at h with h1 h2
  · exact absurd h (by decide)
  · exact h2
  · exact absurd h (by decide)

/-- After the supervisor node, the supervisor routing helper returns one of
the three agent edges (its "end" edge label is unreachable). -/
theorem routeFromSupervisor_cases (c : String) (s1 : WorkflowState) :
    routeFromSupervisor (supervisorNode c s1) = "financial_analyst" ∨
    routeFromSupervisor (supervisorNode c s1) = "report_generator" ∨
    routeFromSupervisor (supervisorNode c s1) = "general_conversation" := by
  unfold routeFromSupervisor
  rcases supervisorNode_route c s1 with h | h | h <;> rw [h]
  · exact Or.inl rfl
  · exact Or.inr (Or.inl rfl)
  · exact Or.inr (Or.inr rfl)

/-- A state that has already retried cannot reach the rewrite call: the
retries breaker fires first. -/
theorem qeCallsRewrite_false_of_retries (ev : EvalOutcome) (s : WorkflowState)
    (h : 1 ≤ s.retries) : qeCallsRewrite ev s = false := by
  unfold qeCallsRewrite
  split_ifs <;> first | rfl | (exfalso; omega)

/-- Behaviour of the shared report-then-evaluate tail: route "end" or
"retry", retries grows by at most one, a "retry" exit pins the counters, one
evaluation, at most one rewrite, and no rewrite at all once a retry has
already happened. -/
theorem runQE_spec (o : TraversalOracle) (s : WorkflowState) :
    ((runQE o s).1.route = "end" ∨ (runQE o s).1.route = "retry") ∧
    (runQE o s).1.retries ≤ s.retries + 1 ∧
    ((runQE o s).1.route = "retry" → s.retries = 0 ∧ (runQE o s).1.retries = 1) ∧
    (runQE o s).2.1 = 1 ∧ (runQE o s).2.2 ≤ 1 ∧
    (1 ≤ s.retries → (runQE o s).2.2 = 0) := by
  have pmid := reportGeneratorNode_preserves o.rg s
  have hroute := qe_route_cases o.qe o.rw (reportGeneratorNode o.rg s)
  have hle := qe_retries_le o.qe o.rw (reportGeneratorNode o.rg s)
  refine ⟨hroute, ?_, fun hr => ?_, rfl, ?_, fun hr => ?_⟩
  · show (qualityEvaluatorNode o.qe o.rw (reportGeneratorNode o.rg s)).retries ≤ s.retries + 1
    omega
  · have hinv := qe_retry_inv o.qe o.rw (reportGeneratorNode o.rg s) hr
    exact ⟨by omega, hinv.2.1⟩
  · show (if qeCallsRewrite o.qe (reportGeneratorNode o.rg s) then 1 else 0) ≤ 1
    split_ifs <;> omega
  · show (if qeCallsRewrite o.qe (reportGeneratorNode o.rg s) then 1 else 0) = 0
    rw [qeCallsRewrite_false_of_retries o.qe (reportGeneratorNode o.rg s) (by omega)]
    rfl

/-- Behaviour of one full traversal: it exits with route "end" or "retry",
retries grows by at most one, a "retry" exit starts from retries 0 and ends
at 1, at most one evaluation and one rewrite happen, and no rewrite happens
once a retry has already been consumed. -/
theorem traverseFull_spec (o : TraversalOracle) (s : WorkflowState) :
    ((traverseFull o s).1.route = "end" ∨ (traverseFull o s).1.route = "retry") ∧
    (traverseFull o s).1.retries ≤ s.retries + 1 ∧
    ((traverseFull o s).1.route = "retry" → s.retries = 0 ∧ (traverseFull o s).1.retries = 1) ∧
    (traverseFull o s).2.1 ≤ 1 ∧ (traverseFull o s).2.2 ≤ 1 ∧
    (1 ≤ s.retries → (traverseFull o s).2.2 = 0) := by
  have p1 := requestAnalystNode_preserves o.ra s
  have p2 := supervisorNode_preserves o.sup (requestAnalystNode o.ra s)
  have p3 := financialAnalystNode_preserves o.fa
    (supervisorNode o.sup (requestAnalystNode o.ra s))
  simp only [traverseFull]
  split_ifs with hA hB hC hD hE
  · have hroute := routeFromRequestAnalyst_end_route _ hA
    refine ⟨Or.inl hroute, ?_, fun hr => ?_, ?_, ?_, fun _ => rfl⟩
    · show (requestAnalystNode o.ra s).retries ≤ s.retries + 1
      omega
    · rw [show ((requestAnalystNode o.ra s, 0, 0) :
          WorkflowState × Nat × Nat).1.route = (requestAnalystNode o.ra s).route from rfl,
        hroute] at hr
      exact absurd hr (by decide)
    · exact Nat.zero_le 1
    · exact Nat.zero_le 1
  · have R := runQE_spec o (requestAnalystNode o.ra s)
    refine ⟨R.1, by omega, fun hr => ?_, by omega, by omega, fun hr => ?_⟩
    · have := R.2.2.1 hr
      exact ⟨by omega, this.2⟩
    · exact R.2.2.2.2.2 (by omega)
  · have R := runQE_spec o (financialAnalystNode o.fa
      (supervisorNode o.sup (requestAnalystNode o.ra s)))
    refine ⟨R.1, by omega, fun hr => ?_, by omega, by omega, fun hr => ?_⟩
    · have := R.2.2.1 hr
      exact ⟨by omega, this.2⟩
    · exact R.2.2.2.2.2 (by omega)
  · have R := runQE_spec o (supervisorNode o.sup (requestAnalystNode o.ra s))
    refine ⟨R.1, by omega, fun hr => ?_, by omega, by omega, fun hr => ?_⟩
    · have := R.2.2.1 hr
      exact ⟨by omega, this.2⟩
    · exact R.2.2.2.2.2 (by omega)
  · have G := generalConversationNode_spec o.gc
      (supervisorNode o.sup (requestAnalystNode o.ra s))
    refine ⟨Or.inl G.2, ?_, fun hr => ?_, ?_, ?_, fun _ => rfl⟩
    · show (generalConversationNode o.gc
        (supervisorNode o.sup (requestAnalystNode o.ra s))).retries ≤ s.retries + 1
      omega
    · rw [show ((generalConversationNode o.gc
          (supervisorNode o.sup (requestAnalystNode o.ra s)), 0, 0) :
          WorkflowState × Nat × Nat).1.route = (generalConversationNode o.gc
          (supervisorNode o.sup (requestAnalystNode o.ra s))).route from rfl, G.2] at hr
      exact absurd hr (by decide)
    · exact Nat.zero_le 1
    · exact Nat.zero_le 1
  · exfalso
    rcases routeFromSupervisor_cases o.sup (requestAnalystNode o.ra s) with h | h | h
    · exact hC h
    · exact hD h
    · exact hE h

/-- The retry loop of the compiled graph: run a traversal, loop back through
the "retry" edge (conditional edge at lines 99-106), accumulating the
evaluation and rewrite counts.  Termination is forced by the retries
breaker: a "retry" exit moves retries from 0 to 1 and a second one is
impossible. -/
def runLoopFull (o : Nat → TraversalOracle) (i : Nat) (s : WorkflowState) :
    WorkflowState × Nat × Nat :=
  if h : (traverseFull (o i) s).1.route = "retry" then
    let r := runLoopFull o (i + 1) (traverseFull (o i) s).1
    (r.1, (traverseFull (o i) s).2.1 + r.2.1, (traverseFull (o i) s).2.2 + r.2.2)
  else traverseFull (o i) s
termination_by 2 - s.retries
decreasing_by
  have h1 := (traverseFull_spec (o i) s).2.2.1 h
  omega

/-- Unfolding disjunction for the retry loop. -/
theorem runLoopFull_cases (o : Nat → TraversalOracle) (i : Nat) (s : WorkflowState) :
    (¬ (traverseFull (o i) s).1.route = "retry" ∧ runLoopFull o i s = traverseFull (o i) s) ∨
    ((traverseFull (o i) s).1.route = "retry" ∧
      runLoopFull o i s = ((runLoopFull o (i + 1) (traverseFull (o i) s).1).1,
        (traverseFull (o i) s).2.1 + (runLoopFull o (i + 1) (traverseFull (o i) s).1).2.1,
        (traverseFull (o i) s).2.2 + (runLoopFull o (i + 1) (traverseFull (o i) s).1).2.2)) := by
  rw [runLoopFull]
  split_ifs with h
  · exact Or.inr ⟨h, rfl⟩
  · exact Or.inl ⟨h, rfl⟩

/-- Global behaviour of the retry loop: the final state's retries is at most
`max (s.retries + 1) 2` and its route is "end"; at most two evaluations and
one rewrite happen in total. -/
theorem runLoopFull_spec (o : Nat → TraversalOracle) (i : Nat) (s : WorkflowState) :
    (runLoopFull o i s).1.retries ≤ max (s.retries + 1) 2 ∧
    (runLoopFull o i s).1.route = "end" ∧
    (runLoopFull o i s).2.1 ≤ 2 ∧ (runLoopFull o i s).2.2 ≤ 1 := by
  have T := traverseFull_spec (o i) s
  rcases runLoopFull_cases o i s with ⟨h, he⟩ | ⟨h, he⟩
  · rw [he]
    refine ⟨by omega, ?_, by omega, by omega⟩
    rcases T.1 with h1 | h1
    · exact h1
    · exact absurd h1 h
  · have h1 := T.2.2.1 h
    have T2 := traverseFull_spec (o (i + 1)) (traverseFull (o i) s).1
    rcases runLoopFull_cases o (i + 1) (traverseFull (o i) s).1 with ⟨h2, he2⟩ | ⟨h2, he2⟩
    · have hz := T2.2.2.2.2.2 (by omega)
      have hroute : (traverseFull (o (i + 1)) (traverseFull (o i) s).1).1.route = "end" := by
        rcases T2.1 with h3 | h3
        · exact h3
        · exact absurd h3 h2
      rw [he, he2]
      dsimp only
      exact ⟨by omega, hroute, by omega, by omega⟩
    · exact absurd (T2.2.2.1 h2).1 (by omega)

/-- The initial state built by `Workflow.run` (lines 513-529). -/
def initialState (question : String) (msgs : List Msg) (prevData : Option AnalysisData) :
    WorkflowState :=
  { question := question, answer := "", route := "", requestType := none,
    analysisData := prevData, qualityPassed := false, qualityDetail := none,
    retries := 0, previousFailureReason := "", consecutiveSameFailures := 0,
    messages := msgs, currentCharts := [], currentSavedFile := none }

/-- Embedding of `Workflow.run` (lines 500-539) with the evaluation/rewrite-call counts
of the whole invocation. -/
def runFull (o : Nat → TraversalOracle) (question : String) (msgs : List Msg)
    (prevData : Option AnalysisData) : WorkflowState × Nat × Nat :=
  runLoopFull o 0 (initialState question msgs prevData)

/-- The `WorkflowState` returned by `Workflow.run`. -/
def run (o : Nat → TraversalOracle) (question : String) (msgs : List Msg)
    (prevData : Option AnalysisData) : WorkflowState :=
  (runFull o question msgs prevData).1

/-- Number of quality evaluations performed by one `run`. -/
def runEvalCount (o : Nat → TraversalOracle) (question : String) (msgs : List Msg)
    (prevData : Option AnalysisData) : Nat :=
  (runFull o question msgs prevData).2.1

/-- Number of `rewrite_query` calls performed by one `run`. -/
def runRewriteCount (o : Nat → TraversalOracle) (question : String) (msgs : List Msg)
    (prevData : Option AnalysisData) : Nat :=
  (runFull o question msgs prevData).2.2

/-- With the question non-empty, an in-domain label and a
financial-analyst supervisor choice, the traversal necessarily flows into
the report-then-evaluate tail, with the retry bookkeeping and the question
carried through unchanged. -/
theorem requestAnalystNode_finance (ra : RAOutcome) (s : WorkflowState)
    (hq : pyStrip s.question ≠ "") (hl : ra.label = some "finance") :
    (requestAnalystNode ra s).route = "report_generator" ∨
    (requestAnalystNode ra s).route = "supervisor" := by
  simp only [requestAnalystNode]
  split_ifs with h1 h2
  · exact absurd h1 hq
  · exact Or.inl rfl
  · exact Or.inr rfl

/-- Under the same conditions, the traversal equals the tail `runQE` run
from a state whose counters and question agree with the incoming state. -/
theorem traverse_scenario (o : TraversalOracle) (s : WorkflowState)
    (hq : pyStrip s.question ≠ "") (hl : o.ra.label = some "finance")
    (hsup : o.sup = "financial_analyst") :
    ∃ m, traverseFull o s = runQE o m ∧ m.retries = s.retries ∧
      m.previousFailureReason = s.previousFailureReason ∧
      m.consecutiveSameFailures = s.consecutiveSameFailures ∧
      m.question = s.question := by
  have p1 := requestAnalystNode_preserves o.ra s
  rcases requestAnalystNode_finance o.ra s hq hl with h | h
  · refine ⟨requestAnalystNode o.ra s, ?_, p1.1, p1.2.1, p1.2.2.1, p1.2.2.2⟩
    simp only [traverseFull]
    rw [show routeFromRequestAnalyst (requestAnalystNode o.ra s) = "report_generator" by
      unfold routeFromRequestAnalyst
      rw [if_pos h]]
    rw [if_neg (by decide), if_pos rfl]
  · have hs2 : supervisorNode o.sup (requestAnalystNode o.ra s) =
        { requestAnalystNode o.ra s with route := "financial_analyst" } := by
      unfold supervisorNode
      rw [if_pos hsup]
    have p3 := financialAnalystNode_preserves o.fa
      (supervisorNode o.sup (requestAnalystNode o.ra s))
    have p2 := supervisorNode_preserves o.sup (requestAnalystNode o.ra s)
    refine ⟨financialAnalystNode o.fa (supervisorNode o.sup (requestAnalystNode o.ra s)), ?_,
      by omega, by rw [p3.2.1, p2.2.1, p1.2.1], by omega,
      by rw [p3.2.2.2, p2.2.2.2, p1.2.2.2]⟩
    simp only [traverseFull]
    rw [show routeFromRequestAnalyst (requestAnalystNode o.ra s) = "supervisor" by
      unfold routeFromRequestAnalyst
      rw [if_neg (by rw [h]; decide), if_neg (by rw [h]; decide)]]
    rw [if_neg (by decide), if_neg (by decide)]
    rw [show routeFromSupervisor (supervisorNode o.sup (requestAnalystNode o.ra s)) =
        "financial_analyst" by
      rw [hs2]
      unfold routeFromSupervisor
      rfl]
    rw [if_pos rfl]

/-- A first failure with a fresh reason and no prior retry reaches the
rewrite call. -/
theorem qeCallsRewrite_fresh (ev : EvalOutcome) (s : WorkflowState)
    (h : ev.status ≠ "pass") (hr : s.retries = 0)
    (hpf : ev.failureReason.getD "unknown" ≠ s.previousFailureReason) :
    qeCallsRewrite ev s = true := by
  simp only [qeCallsRewrite, if_neg h, if_neg hpf]
  rw [if_neg (show ¬ 2 ≤ s.retries + 1 by omega), if_neg (show ¬ (2 : Nat) ≤ 1 by omega)]

/-- The always-fail-with-"error" scenario: a run whose traversals all reach
the evaluator (non-empty questions, finance label, financial-analyst
routing) and whose evaluator always fails with reason "error" performs
exactly two evaluations and exactly one rewrite, then terminates. -/
theorem run_scenario_counts (o : Nat → TraversalOracle) (q : String) (msgs : List Msg)
    (prev : Option AnalysisData)
    (hq : pyStrip q ≠ "")
    (hqe : ∀ i, (o i).qe = { status := "fail", failureReason := some "error" })
    (hnui : ∀ i, (o i).rw.needsUserInput = false)
    (hrq : ∀ i, ∃ rq, (o i).rw.rewrittenQuery = some rq ∧ pyStrip rq ≠ "")
    (hl : ∀ i, (o i).ra.label = some "finance")
    (hsup : ∀ i, (o i).sup = "financial_analyst") :
    runEvalCount o q msgs prev = 2 ∧ runRewriteCount o q msgs prev = 1 ∧
    (run o q msgs prev).route = "end" := by
  have hstat : ∀ i, ((o i).qe).status ≠ "pass" := fun i => by rw [hqe i]; decide
  have hfr : ∀ i, ((o i).qe).failureReason.getD "unknown" = "error" := fun i => by
    rw [hqe i]
    rfl
  have h00 : (initialState q msgs prev).retries = 0 := rfl
  have h01 : (initialState q msgs prev).previousFailureReason = "" := rfl
  obtain ⟨m1, he1, hm1r, hm1p, hm1c, hm1q⟩ :=
    traverse_scenario (o 0) (initialState q msgs prev) hq (hl 0) (hsup 0)
  have pPre1 := reportGeneratorNode_preserves (o 0).rg m1
  have hcall1 : qeCallsRewrite (o 0).qe (reportGeneratorNode (o 0).rg m1) = true := by
    refine qeCallsRewrite_fresh _ _ (hstat 0) (by omega) ?_
    rw [hfr 0, pPre1.2.1, hm1p, h01]
    decide
  have hrex := (qe_rewrite_exits (o 0).qe (o 0).rw (reportGeneratorNode (o 0).rg m1)
    (hstat 0) hcall1).2 (hnui 0)
  have ht1route : (traverseFull (o 0) (initialState q msgs prev)).1.route = "retry" := by
    rw [he1]
    exact hrex.1
  have ht1ev : (traverseFull (o 0) (initialState q msgs prev)).2.1 = 1 := by
    rw [he1]
    rfl
  have ht1rw : (traverseFull (o 0) (initialState q msgs prev)).2.2 = 1 := by
    rw [he1]
    show (if qeCallsRewrite (o 0).qe (reportGeneratorNode (o 0).rg m1) then 1 else 0) = 1
    rw [hcall1]
    rfl
  obtain ⟨rq0, hrq0, hrq0ne⟩ := hrq 0
  have ht1retr : (traverseFull (o 0) (initialState q msgs prev)).1.retries = 1 := by
    rw [he1]
    show (qualityEvaluatorNode (o 0).qe (o 0).rw (reportGeneratorNode (o 0).rg m1)).retries = 1
    omega
  have ht1q : (traverseFull (o 0) (initialState q msgs prev)).1.question = rq0 := by
    rw [he1]
    show (qualityEvaluatorNode (o 0).qe (o 0).rw (reportGeneratorNode (o 0).rg m1)).question = rq0
    rw [hrex.2.1, hrq0]
    rfl
  obtain ⟨m2, he2, hm2r, hm2p, hm2c, hm2q⟩ :=
    traverse_scenario (o 1) (traverseFull (o 0) (initialState q msgs prev)).1
      (by rw [ht1q]; exact hrq0ne) (hl 1) (hsup 1)
  have pPre2 := reportGeneratorNode_preserves (o 1).rg m2
  have ht2route :
      (traverseFull (o 1) (traverseFull (o 0) (initialState q msgs prev)).1).1.route = "end" := by
    rw [he2]
    exact qe_cap_ends (o 1).qe (o 1).rw _ (hstat 1) (by omega)
  have ht2ev :
      (traverseFull (o 1) (traverseFull (o 0) (initialState q msgs prev)).1).2.1 = 1 := by
    rw [he2]
    rfl
  have ht2rw :
      (traverseFull (o 1) (traverseFull (o 0) (initialState q msgs prev)).1).2.2 = 0 := by
    rw [he2]
    show (if qeCallsRewrite (o 1).qe (reportGeneratorNode (o 1).rg m2) then 1 else 0) = 0
    rw [qeCallsRewrite_false_of_retries _ _ (by omega)]
    rfl
  rcases runLoopFull_cases o 0 (initialState q msgs prev) with ⟨hn, _⟩ | ⟨_, heq⟩
  · exact absurd ht1route hn
  · simp only [Nat.zero_add] at heq
    rcases runLoopFull_cases o 1 (traverseFull (o 0) (initialState q msgs prev)).1 with
      ⟨_, heq2⟩ | ⟨hr2, _⟩
    · refine ⟨?_, ?_, ?_⟩
      · show (runLoopFull o 0 (initialState q msgs prev)).2.1 = 2
        rw [heq]
        dsimp only
        rw [heq2]
        omega
      · show (runLoopFull o 0 (initialState q msgs prev)).2.2 = 1
        rw [heq]
        dsimp only
        rw [heq2]
        omega
      · show (runLoopFull o 0 (initialState q msgs prev)).1.route = "end"
        rw [heq]
        dsimp only
        rw [heq2]
        exact ht2route
    · rw [ht2route] at hr2
      exact absurd hr2 (by decide)

/-- C1: every invocation of `Workflow.run` terminates — for every question,
every prior state and every oracle stream (so every sequence of
quality-evaluator outcomes) the graph reaches the terminal end state with
route "end" and the returned state satisfies retries ≤ 2; and
`quality_evaluator_node` sets route "end" (no further rewrite) as soon as
the incremented retries counter reaches 2. -/
theorem claim_C1_termination_retry_cap :
    (∀ (o : Nat → TraversalOracle) (q : String) (msgs : List Msg)
      (prev : Option AnalysisData),
      (run o q msgs prev).route = "end" ∧ (run o q msgs prev).retries ≤ 2) ∧
    (∀ (ev : EvalOutcome) (rwo : RewriteOutcome) (s : WorkflowState),
      ev.status ≠ "pass" → 2 ≤ s.retries + 1 →
      (qualityEvaluatorNode ev rwo s).route = "end") := by
  constructor
  · intro o q msgs prev
    have S := runLoopFull_spec o 0 (initialState q msgs prev)
    have h0 : (initialState q msgs prev).retries = 0 := rfl
    refine ⟨S.2.1, ?_⟩
    show (runLoopFull o 0 (initialState q msgs prev)).1.retries ≤ 2
    have h1 := S.1
    omega
  · exact fun ev rwo s h hr => qe_cap_ends ev rwo s h hr

/-- A concrete oracle whose evaluator fails with "low_quality" every time. -/
def c1Oracle : TraversalOracle :=
  { ra := { label := some "finance", returnMsg := none },
    sup := "financial_analyst",
    fa := .ok (some { analysisType := "single" }),
    rg := { retrieveDocs := [], fallbackAnalyze := .ok none,
            reportCall := .ok (some { report := "분석 요약 보고서", charts := [], savedPath := none }) },
    gc := .ok "일반 대화 답변",
    qe := { status := "fail", failureReason := some "low_quality" },
    rw := { needsUserInput := false, rewrittenQuery := some "더 구체적인 질문",
            requestForDetailMsg := none } }

/-- A concrete state that has already consumed its first retry. -/
def c1State : WorkflowState :=
  { question := "테슬라 전망", answer := "이전 답변", route := "retry", requestType := none,
    analysisData := none, qualityPassed := false, qualityDetail := none,
    retries := 1, previousFailureReason := "low_quality", consecutiveSameFailures := 1,
    messages := [], currentCharts := [], currentSavedFile := none }

/-- Witness for C1 at a concrete oracle stream, and at a concrete failing
evaluation whose incremented retries counter reaches 2. -/
theorem claim_C1_termination_retry_cap_witness :
    ((run (fun _ => c1Oracle) "나스닥이 뭐야?" [] none).route = "end" ∧
      (run (fun _ => c1Oracle) "나스닥이 뭐야?" [] none).retries ≤ 2) ∧
    (qualityEvaluatorNode { status := "fail", failureReason := some "low_quality" }
      { needsUserInput := false, rewrittenQuery := none, requestForDetailMsg := none }
      c1State).route = "end" :=
  ⟨claim_C1_termination_retry_cap.1 (fun _ => c1Oracle) "나스닥이 뭐야?" [] none,
   claim_C1_termination_retry_cap.2
     { status := "fail", failureReason := some "low_quality" }
     { needsUserInput := false, rewrittenQuery := none, requestForDetailMsg := none }
     c1State (by decide) (by decide)⟩

/-- C3: after any evaluation with status "pass", the evaluator node leaves
retries 0, consecutive_same_failures 0, previous_failure_reason empty and
route "end", and the conditional edge therefore maps the state to END. -/
theorem claim_C3_pass_resets (ev : EvalOutcome) (rwo : RewriteOutcome) (s : WorkflowState)
    (h : ev.status = "pass") :
    (qualityEvaluatorNode ev rwo s).retries = 0 ∧
    (qualityEvaluatorNode ev rwo s).consecutiveSameFailures = 0 ∧
    (qualityEvaluatorNode ev rwo s).previousFailureReason = "" ∧
    (qualityEvaluatorNode ev rwo s).route = "end" ∧
    routeFromQualityEvaluator (qualityEvaluatorNode ev rwo s) = "end" := by
  have P := qe_pass_fields ev rwo s h
  refine ⟨P.1, P.2.1, P.2.2.1, P.2.2.2.1, ?_⟩
  unfold routeFromQualityEvaluator
  rw [P.2.2.2.1]
  rfl

/-- Witness for C3 at a concrete passing evaluation over a dirty state. -/
theorem claim_C3_pass_resets_witness :
    (qualityEvaluatorNode { status := "pass", failureReason := none }
      { needsUserInput := false, rewrittenQuery := none, requestForDetailMsg := none }
      { question := "질문", answer := "답변", route := "", requestType := none,
        analysisData := none, qualityPassed := false, qualityDetail := none,
        retries := 1, previousFailureReason := "error", consecutiveSameFailures := 1,
        messages := [], currentCharts := [], currentSavedFile := none }).retries = 0 ∧
    (qualityEvaluatorNode { status := "pass", failureReason := none }
      { needsUserInput := false, rewrittenQuery := none, requestForDetailMsg := none }
      { question := "질문", answer := "답변", route := "", requestType := none,
        analysisData := none, qualityPassed := false, qualityDetail := none,
        retries := 1, previousFailureReason := "error", consecutiveSameFailures := 1,
        messages := [], currentCharts := [], currentSavedFile := none }).route = "end" := by
  have h := claim_C3_pass_resets { status := "pass", failureReason := none }
    { needsUserInput := false, rewrittenQuery := none, requestForDetailMsg := none }
    { question := "질문", answer := "답변", route := "", requestType := none,
      analysisData := none, qualityPassed := false, qualityDetail := none,
      retries := 1, previousFailureReason := "error", consecutiveSameFailures := 1,
      messages := [], currentCharts := [], currentSavedFile := none } rfl
  exact ⟨h.1, h.2.2.2.1⟩

/-- A concrete oracle whose evaluator always fails with reason "error". -/
def c2Oracle : TraversalOracle :=
  { ra := { label := some "finance", returnMsg := none },
    sup := "financial_analyst",
    fa := .ok (some { analysisType := "single" }),
    rg := { retrieveDocs := [], fallbackAnalyze := .ok none,
            reportCall := .ok (some { report := "요약", charts := [], savedPath := none }) },
    gc := .ok "대화 답변",
    qe := { status := "fail", failureReason := some "error" },
    rw := { needsUserInput := false, rewrittenQuery := some "재작성된 질문",
            requestForDetailMsg := none } }

/-- C2 counterexample: with an evaluator that always returns
failure_reason "error" the run performs exactly 1 query-rewrite attempt, not
the 2 the claim states — after the second failing evaluation the retries
breaker (line 398) fires before `rewrite_query` is ever called again. -/
theorem claim_C2_counterexample :
    runRewriteCount (fun _ => c2Oracle) "삼성전자 주가 분석해줘" [] none = 1 ∧
    ¬ runRewriteCount (fun _ => c2Oracle) "삼성전자 주가 분석해줘" [] none = 2 := by
  have h := run_scenario_counts (fun _ => c2Oracle) "삼성전자 주가 분석해줘" [] none
    (by decide) (fun _ => rfl) (fun _ => rfl)
    (fun _ => ⟨"재작성된 질문", rfl, by decide⟩) (fun _ => rfl) (fun _ => rfl)
  refine ⟨h.2.1, ?_⟩
  rw [h.2.1]
  decide

/-- C2 as amended: within one question's processing a second rewrite never
happens (at most 2 evaluations and at most 1 rewrite in any run, so in
particular an evaluator repeating the same failure_reason terminates the
run right after its second evaluation, with no second — let alone third —
rewrite); and with an evaluator that always returns failure_reason "error"
(and rewrites that keep the run going), the run performs exactly 2
evaluations and exactly 1 query-rewrite attempt and then terminates. -/
theorem claim_C2_rewrite_budget :
    (∀ (o : Nat → TraversalOracle) (q : String) (msgs : List Msg)
      (prev : Option AnalysisData),
      runEvalCount o q msgs prev ≤ 2 ∧ runRewriteCount o q msgs prev ≤ 1) ∧
    (∀ (o : Nat → TraversalOracle) (q : String) (msgs : List Msg)
      (prev : Option AnalysisData),
      pyStrip q ≠ "" →
      (∀ i, (o i).qe = { status := "fail", failureReason := some "error" }) →
      (∀ i, (o i).rw.needsUserInput = false) →
      (∀ i, ∃ rq, (o i).rw.rewrittenQuery = some rq ∧ pyStrip rq ≠ "") →
      (∀ i, (o i).ra.label = some "finance") →
      (∀ i, (o i).sup = "financial_analyst") →
      runEvalCount o q msgs prev = 2 ∧ runRewriteCount o q msgs prev = 1 ∧
      (run o q msgs prev).route = "end") := by
  constructor
  · intro o q msgs prev
    have S := runLoopFull_spec o 0 (initialState q msgs prev)
    exact ⟨S.2.2.1, S.2.2.2⟩
  · intro o q msgs prev hq hqe hnui hrq hl hsup
    exact run_scenario_counts o q msgs prev hq hqe hnui hrq hl hsup

/-- Witness for C2 (amended) at the concrete always-"error" oracle. -/
theorem claim_C2_rewrite_budget_witness :
    (runEvalCount (fun _ => c2Oracle) "삼성전자 주가 분석해줘" [] none ≤ 2 ∧
      runRewriteCount (fun _ => c2Oracle) "삼성전자 주가 분석해줘" [] none ≤ 1) ∧
    (runEvalCount (fun _ => c2Oracle) "삼성전자 주가 분석해줘" [] none = 2 ∧
      runRewriteCount (fun _ => c2Oracle) "삼성전자 주가 분석해줘" [] none = 1 ∧
      (run (fun _ => c2Oracle) "삼성전자 주가 분석해줘" [] none).route = "end") :=
  ⟨claim_C2_rewrite_budget.1 (fun _ => c2Oracle) "삼성전자 주가 분석해줘" [] none,
   claim_C2_rewrite_budget.2 (fun _ => c2Oracle) "삼성전자 주가 분석해줘" [] none
     (by decide) (fun _ => rfl) (fun _ => rfl)
     (fun _ => ⟨"재작성된 질문", rfl, by decide⟩) (fun _ => rfl) (fun _ => rfl)⟩

end WF

end Spec2Proof
